import Mathlib

/-!
Shallow embedding of `hummingbot/connector/gateway/gateway_swap.py`
(class `GatewaySwap`).

The class is an adapter between the internal trading interface and a remote
swap gateway.  Its visible behaviour is pure data reshaping plus calls to
collaborators that live in the base class `GatewayBase` and in the gateway
client, neither of which is under `src/`.  Those collaborators are modelled
as fields of an environment record (`SwapEnv`) and as oracle functions
passed to each operation; each operation returns, besides its result, the
trace of gateway calls, log events and order events it produced, so that
claims about "what was sent", "what was logged" and "in which order" become
statements about those traces.

Python `Decimal` values are modelled opaquely (a wrapper around the string
they were built from): the file under verification performs no arithmetic
on them, it only passes them through.  Python `float(x)` conversions are
likewise modelled symbolically by a dedicated `PyValue` constructor.
-/

deriving instance DecidableEq for Except

namespace GatewaySwap

/-- Python enum `TradeType` from `hummingbot.core.data_type.common`:
`BUY`, `SELL` (and `RANGE`, unused here).  Only its `.name` attribute is
consumed by the code under verification. -/
inductive TradeType where
  | BUY
  | SELL
  | RANGE
deriving DecidableEq

/-- The `.name` attribute of the Python enum member. -/
def TradeType.name : TradeType → String
  | .BUY => "BUY"
  | .SELL => "SELL"
  | .RANGE => "RANGE"

/-- Python `str()` of a `TradeType` enum member (`"TradeType.BUY"` etc.),
used only inside log messages. -/
def TradeType.pyStr (t : TradeType) : String :=
  "TradeType." ++ t.name

/-- Python enum `OrderType`; `buy`/`sell` accept it but never inspect it. -/
inductive OrderType where
  | MARKET
  | LIMIT
  | LIMIT_MAKER
deriving DecidableEq

/-- Python `Decimal`, modelled opaquely by the string it was constructed
from; `gateway_swap.py` does no arithmetic on `Decimal` values. -/
structure Dec where
  val : String
deriving DecidableEq

/-- A Python value as it appears in request payloads and gateway
responses: a string, a JSON number, or the result of `float(d)` applied to
a `Decimal` (kept symbolic; no floating-point semantics is needed because
such values are only passed through). -/
inductive PyValue where
  | str (s : String)
  | num (q : Rat)
  | floatOfDec (d : Dec)
deriving DecidableEq

/-- Python `str()` of a `PyValue`.  The exact rendering of numbers is
irrelevant to every claim (these strings are opaque to the code); only the
identity `str` on strings matters. -/
def pyStr : PyValue → String
  | .str s => s
  | .num q => toString q
  | .floatOfDec d => d.val

/-- Python `Decimal(s)` for a string `s`, under the opaque model of
`Decimal`. -/
def pyDecimal (s : String) : Dec :=
  ⟨s⟩

/-- A Python dict with string keys, as a key/value list in insertion
order (Python dicts preserve insertion order). -/
def PyDict : Type :=
  List (String × PyValue)

instance : DecidableEq PyDict := by
  unfold PyDict
  infer_instance

/-- Dict lookup, `d[k]` / `d.get(k)`: first binding of the key wins. -/
def pyGet (d : PyDict) (k : String) : Option PyValue :=
  match d with
  | [] => none
  | (k₂, v) :: rest => if k₂ = k then some v else pyGet rest k

/-- Python `k in d` for a dict. -/
def pyContains (d : PyDict) (k : String) : Bool :=
  (pyGet d k).isSome

/-- The keys of a dict, for the `Response keys: ...` log message. -/
def pyKeys (d : PyDict) : List String :=
  d.map Prod.fst

/-- Log events emitted through `self.logger()`. -/
inductive LogEvent where
  | info (msg : String)
  | networkError (msg : String) (app_warning_msg : String)
deriving DecidableEq

/-- Python exceptions relevant to this class: `asyncio.CancelledError`,
`ValueError` (from tuple unpacking of a malformed trading pair), and any
other exception, carrying its message. -/
inductive PyExc where
  | cancelledError
  | valueError (msg : String)
  | other (msg : String)
deriving DecidableEq

/-- Python `str(e)` of an exception, used for `app_warning_msg`. -/
def PyExc.text : PyExc → String
  | .cancelledError => "CancelledError"
  | .valueError m => m
  | .other m => m

/-- Python `trading_pair.split("-")`: split on every occurrence of the
character `-`; an empty string yields `[""]`, matching `str.split` with an
explicit separator.  (Implemented over the character list because it must
evaluate inside the kernel.) -/
def pySplitDash (s : String) : List String :=
  (s.toList.splitOn '-').map (fun cs => ⟨cs⟩)

/-- `GatewaySwap.parse_price_response` (gateway_swap.py lines 93-120),
translated clause by clause:
if `"price"` is missing, log an info message (whose text depends on
whether `"info"` is present) and return `None`; otherwise return
`Decimal(str(price_response["price"]))`.
The `base`, `quote`, `amount`, `side` and `process_exception` parameters
are accepted as in the source and never used for the result.
Returns the result together with the log-event trace. -/
def parse_price_response (base quote : String) (amount : Dec) (side : TradeType)
    (price_response : PyDict) (process_exception : Bool := true) :
    Option Dec × List LogEvent :=
  if pyContains price_response "price" = false then
    if pyContains price_response "info" then
      (none, [.info ("Unable to get price. " ++
        pyStr ((pyGet price_response "info").getD (.str "")))])
    else
      (none, [.info ("Missing price in response. Response keys: " ++
        toString (pyKeys price_response))])
  else
    ((pyGet price_response "price").map (fun v => pyDecimal (pyStr v)), [])

/-- Modelled from the spec: `ConnectorType` lives in
`hummingbot.connector.gateway.common_types`, which is not under `src/`;
the code under verification only tests membership in `{CLMM, AMM}`, so
every other connector type is collapsed into `ROUTER`. -/
inductive ConnectorType where
  | CLMM
  | AMM
  | ROUTER
deriving DecidableEq

/-- A handle to the gateway client object returned by
`_get_gateway_instance()`; only its identity is observed here. -/
structure GatewayInstance where
  id : Nat
deriving DecidableEq

/-- Modelled from the spec: the attributes and helpers `GatewaySwap`
inherits from `GatewayBase` (not under `src/`) — network/chain/address
and connector name, the quantization helpers, the order-id factory and
the gateway-instance factory — kept fully abstract as record fields; the
theorems quantify over them. -/
structure SwapEnv where
  network : String
  chain : String
  address : String
  connector_name : String
  get_connector_type : String → ConnectorType
  quantize_order_amount : String → Dec → Dec
  quantize_order_price : String → Dec → Dec
  create_market_order_id : TradeType → String → String
  _get_gateway_instance : GatewayInstance

/-- The mutable per-object state of `GatewaySwap`: the `_tx_handler`
field, initialised to `None` in `__init__`. -/
structure SwapState where
  _tx_handler : Option GatewayInstance
deriving DecidableEq

/-- The `tx_handler` property (gateway_swap.py lines 22-26): on first
access it stores `_get_gateway_instance()` in `_tx_handler`; afterwards it
returns the stored handler.  Returns the handler, the updated object
state, and whether `_get_gateway_instance()` was called. -/
def tx_handler (env : SwapEnv) (s : SwapState) : GatewayInstance × SwapState × Bool :=
  match s._tx_handler with
  | none => (env._get_gateway_instance, ⟨some env._get_gateway_instance⟩, true)
  | some g => (g, s, false)

/-- One call to `connector_request` on the gateway instance: the HTTP
verb, the connector name, the endpoint, and the request payload. -/
structure GatewayRequest where
  http_method : String
  connector : String
  endpoint : String
  payload : PyDict
deriving DecidableEq

/-- Observable outcome of one `get_quote_price` invocation: its return
value or uncaught exception, the gateway requests it issued, and the log
events it emitted. -/
structure QuoteResult where
  result : Except PyExc (Option Dec)
  calls : List GatewayRequest
  logs : List LogEvent
deriving DecidableEq

/-- The f-string logged by `get_quote_price` on a non-cancellation
exception (gateway_swap.py lines 75-79). -/
def quote_error_msg (trading_pair : String) (side : TradeType) (amount : Dec) : String :=
  "Error getting quote price for " ++ trading_pair ++ " " ++ side.pyStr ++
    " order for " ++ amount.val ++ " amount."

/-- The `ValueError` message Python raises when unpacking the result of
`trading_pair.split("-")` into `base, quote` fails. -/
def unpack_error_msg (n : Nat) : String :=
  if n < 2 then
    "not enough values to unpack (expected 2, got " ++ toString n ++ ")"
  else
    "too many values to unpack (expected 2)"

/-- The `request_payload` dict built by `get_quote_price`
(gateway_swap.py lines 55-65): the five unconditional fields in source
order, then `slippagePct` when `slippage_pct` was given, then
`poolAddress` when the connector type is CLMM or AMM and `pool_address`
was given. -/
def quote_request_payload (env : SwapEnv) (base quote : String)
    (side : TradeType) (amount : Dec) (slippage_pct : Option Dec)
    (pool_address : Option String) : PyDict :=
  let connector_type := env.get_connector_type env.connector_name
  [("network", .str env.network),
   ("baseToken", .str base),
   ("quoteToken", .str quote),
   ("amount", .floatOfDec amount),
   ("side", .str side.name)] ++
  (match slippage_pct with
   | some sp => [("slippagePct", .floatOfDec sp)]
   | none => []) ++
  (if connector_type = ConnectorType.CLMM ∨ connector_type = ConnectorType.AMM then
    match pool_address with
    | some pool => [("poolAddress", .str pool)]
    | none => []
  else [])

/-- The single gateway request issued by `get_quote_price`
(gateway_swap.py lines 67-72): a `get` on the `quote-swap` endpoint of
the configured connector. -/
def quote_request (env : SwapEnv) (base quote : String) (side : TradeType)
    (amount : Dec) (slippage_pct : Option Dec) (pool_address : Option String) :
    GatewayRequest :=
  ⟨"get", env.connector_name, "quote-swap",
    quote_request_payload env base quote side amount slippage_pct pool_address⟩

/-- `GatewaySwap.get_quote_price` (gateway_swap.py lines 28-80), the
undecorated body (the `async_ttl_cache` decorator lives in a module not
under `src/`): unpack the trading pair (a `ValueError` escapes before the
`try` block), build the request payload field by field, issue one
`quote-swap` request, and parse the response; `asyncio.CancelledError` is
re-raised, any other exception is logged and `None` is returned.
`connector_request` is the gateway oracle: the response or exception the
gateway produces for a request. -/
def get_quote_price (env : SwapEnv)
    (connector_request : GatewayRequest → Except PyExc PyDict)
    (trading_pair : String) (is_buy : Bool) (amount : Dec)
    (slippage_pct : Option Dec := none) (pool_address : Option String := none) :
    QuoteResult :=
  match pySplitDash trading_pair with
  | [base, quote] =>
    let side : TradeType := if is_buy then TradeType.BUY else TradeType.SELL
    let req : GatewayRequest :=
      quote_request env base quote side amount slippage_pct pool_address
    match connector_request req with
    | .ok resp =>
      let parsed := parse_price_response base quote amount side resp
      { result := .ok parsed.1, calls := [req], logs := parsed.2 }
    | .error .cancelledError =>
      { result := .error .cancelledError, calls := [req], logs := [] }
    | .error e =>
      { result := .ok none, calls := [req],
        logs := [.networkError (quote_error_msg trading_pair side amount) e.text] }
  | parts =>
    { result := .error (.valueError (unpack_error_msg parts.length)),
      calls := [], logs := [] }

/-- `GatewaySwap.get_order_price` (gateway_swap.py lines 82-91): delegates
to `get_quote_price` with `slippage_pct` and `pool_address` at their
defaults. -/
def get_order_price (env : SwapEnv)
    (connector_request : GatewayRequest → Except PyExc PyDict)
    (trading_pair : String) (is_buy : Bool) (amount : Dec) : QuoteResult :=
  get_quote_price env connector_request trading_pair is_buy amount

/-- One `_create_order` coroutine scheduled through `safe_ensure_future`,
recorded with the exact arguments it was scheduled with. -/
structure ScheduledOrder where
  trade_type : TradeType
  order_id : String
  trading_pair : String
  amount : Dec
  price : Dec
deriving DecidableEq

/-- `GatewaySwap.place_order` (gateway_swap.py lines 144-156): create the
order id via `create_market_order_id`, schedule `_create_order` as a
separate task, and return the id immediately.  The scheduled task is
returned as data, not executed. -/
def place_order (env : SwapEnv) (is_buy : Bool) (trading_pair : String)
    (amount price : Dec) : String × List ScheduledOrder :=
  let side : TradeType := if is_buy then TradeType.BUY else TradeType.SELL
  let order_id : String := env.create_market_order_id side trading_pair
  (order_id, [⟨side, order_id, trading_pair, amount, price⟩])

/-- `GatewaySwap.buy` (gateway_swap.py lines 122-132). -/
def buy (env : SwapEnv) (trading_pair : String) (amount : Dec)
    (order_type : OrderType) (price : Dec) : String × List ScheduledOrder :=
  place_order env true trading_pair amount price

/-- `GatewaySwap.sell` (gateway_swap.py lines 134-143). -/
def sell (env : SwapEnv) (trading_pair : String) (amount : Dec)
    (order_type : OrderType) (price : Dec) : String × List ScheduledOrder :=
  place_order env false trading_pair amount price

/-- One call to `tx_handler.execute_transaction`, with the keyword
arguments the source passes (the `gateway_connector=self` argument is the
object itself and carries no information here). -/
structure ExecuteTxCall where
  chain : String
  network : String
  connector : String
  method : String
  params : PyDict
  order_id : String
deriving DecidableEq

/-- Observable events of `_create_order`, in program order. -/
inductive OrderEvent where
  | startTracking (order_id trading_pair : String) (trade_type : TradeType)
      (price amount : Dec)
  | executeTransaction (call : ExecuteTxCall)
  | logInfo (msg : String)
  | handleOperationFailure (order_id trading_pair operation : String) (e : PyExc)
deriving DecidableEq

/-- Observable outcome of one `_create_order` invocation: its result or
uncaught exception, the event trace, and the final object state. -/
structure CreateOrderResult where
  result : Except PyExc Unit
  events : List OrderEvent
  state : SwapState
deriving DecidableEq

/-- The `execute_transaction` call issued by `_create_order`
(gateway_swap.py lines 177-191); `amount` is the already-quantized order
amount.  The quantized price is deliberately absent from `params`
(source comment: "TO-DO: add limit_price to Gateway execute-swap
schema"). -/
def execute_swap_call (env : SwapEnv) (base quote : String)
    (trade_type : TradeType) (order_id : String) (amount : Dec) :
    ExecuteTxCall :=
  { chain := env.chain, network := env.network,
    connector := env.connector_name, method := "execute-swap",
    params := [("walletAddress", .str env.address),
               ("baseToken", .str base),
               ("quoteToken", .str quote),
               ("amount", .floatOfDec amount),
               ("side", .str trade_type.name)],
    order_id := order_id }

/-- `GatewaySwap._create_order` (gateway_swap.py lines 158-209): quantize
amount and price, unpack the trading pair, start tracking the order, then
submit the swap through `tx_handler.execute_transaction`;
`asyncio.CancelledError` is re-raised, any other exception is routed to
`_handle_operation_failure`.  `execute_transaction` is the oracle for the
submission outcome. -/
def _create_order (env : SwapEnv)
    (execute_transaction : ExecuteTxCall → Except PyExc Unit)
    (s : SwapState) (trade_type : TradeType) (order_id : String)
    (trading_pair : String) (amount price : Dec) : CreateOrderResult :=
  let amount := env.quantize_order_amount trading_pair amount
  let price := env.quantize_order_price trading_pair price
  match pySplitDash trading_pair with
  | [base, quote] =>
    let tracking : OrderEvent :=
      .startTracking order_id trading_pair trade_type price amount
    let handler := tx_handler env s
    let call : ExecuteTxCall :=
      execute_swap_call env base quote trade_type order_id amount
    match execute_transaction call with
    | .ok _ =>
      { result := .ok (), state := handler.2.1,
        events := [tracking, .executeTransaction call,
                   .logInfo ("Swap order " ++ order_id ++ " submitted")] }
    | .error .cancelledError =>
      { result := .error .cancelledError, state := handler.2.1,
        events := [tracking, .executeTransaction call] }
    | .error e =>
      { result := .ok (), state := handler.2.1,
        events := [tracking, .executeTransaction call,
                   .handleOperationFailure order_id trading_pair
                     ("submitting " ++ trade_type.name ++ " swap order") e] }
  | parts =>
    { result := .error (.valueError (unpack_error_msg parts.length)),
      events := [], state := s }

/-- A concrete environment, used only by witnesses and counterexamples. -/
def env0 : SwapEnv :=
  { network := "mainnet-beta", chain := "solana", address := "WALLET1",
    connector_name := "raydium",
    get_connector_type := fun _ => ConnectorType.AMM,
    quantize_order_amount := fun _ d => d,
    quantize_order_price := fun _ d => d,
    create_market_order_id := fun side pair => "order-" ++ side.name ++ "-" ++ pair,
    _get_gateway_instance := ⟨7⟩ }

/-- A gateway oracle answering every request with a fixed response. -/
def okOracle (resp : PyDict) : GatewayRequest → Except PyExc PyDict :=
  fun _ => .ok resp

/-- A gateway oracle raising a fixed exception on every request. -/
def errOracle (e : PyExc) : GatewayRequest → Except PyExc PyDict :=
  fun _ => .error e

/-- A transaction oracle on which every submission succeeds. -/
def okExec : ExecuteTxCall → Except PyExc Unit :=
  fun _ => .ok ()

/-- A transaction oracle on which every submission raises a fixed
exception. -/
def errExec (e : PyExc) : ExecuteTxCall → Except PyExc Unit :=
  fun _ => .error e

end GatewaySwap

namespace GatewaySwap

/-- The result component of `parse_price_response` is a pure function of
the `"price"` entry of the response dict. -/
lemma parse_price_response_fst (base quote : String) (amount : Dec)
    (side : TradeType) (price_response : PyDict) (process_exception : Bool) :
    (parse_price_response base quote amount side price_response process_exception).1 =
      (pyGet price_response "price").map (fun v => pyDecimal (pyStr v)) := by
  cases hv : pyGet price_response "price" with
  | none =>
    by_cases hinfo : (pyGet price_response "info").isSome = true <;>
      simp [parse_price_response, pyContains, hv, hinfo]
  | some v =>
    simp [parse_price_response, pyContains, hv]

/-- C1: `parse_price_response` returns `Decimal(str(response["price"]))`
when the key `"price"` is present, `None` when it is absent, and the
result depends only on the `"price"` entry of the response (every other
key influences at most the log trace). -/
theorem parse_price_response_only_price (base quote : String) (amount : Dec)
    (side : TradeType) (price_response : PyDict) (process_exception : Bool) :
    (∀ v, pyGet price_response "price" = some v →
      (parse_price_response base quote amount side price_response process_exception).1 =
        some (pyDecimal (pyStr v))) ∧
    (pyGet price_response "price" = none →
      (parse_price_response base quote amount side price_response process_exception).1 = none) ∧
    (∀ (b₂ q₂ : String) (a₂ : Dec) (s₂ : TradeType) (r₂ : PyDict) (p₂ : Bool),
      pyGet r₂ "price" = pyGet price_response "price" →
      (parse_price_response b₂ q₂ a₂ s₂ r₂ p₂).1 =
        (parse_price_response base quote amount side price_response process_exception).1) := by
  refine ⟨?_, ?_, ?_⟩
  · intro v hv
    rw [parse_price_response_fst, hv]
    rfl
  · intro hv
    rw [parse_price_response_fst, hv]
    rfl
  · intro b₂ q₂ a₂ s₂ r₂ p₂ h
    rw [parse_price_response_fst, parse_price_response_fst, h]

/-- Witness for C1 at a concrete response: the dictionary
`{"price": "1.5", "info": "x"}` parses to `Decimal("1.5")`, and a second
dictionary with the same `"price"` entry but different other keys parses
to the same result. -/
theorem parse_price_response_only_price_witness :
    (parse_price_response "ETH" "USDT" ⟨"2"⟩ .BUY
        [("price", .str "1.5"), ("info", .str "x")] true).1 =
      some (pyDecimal (pyStr (.str "1.5"))) ∧
    (parse_price_response "A" "B" ⟨"7"⟩ .SELL
        [("price", .str "1.5")] false).1 =
      (parse_price_response "ETH" "USDT" ⟨"2"⟩ .BUY
        [("price", .str "1.5"), ("info", .str "x")] true).1 := by
  constructor
  · exact (parse_price_response_only_price "ETH" "USDT" ⟨"2"⟩ .BUY
      [("price", .str "1.5"), ("info", .str "x")] true).1 (.str "1.5") (by decide)
  · exact (parse_price_response_only_price "ETH" "USDT" ⟨"2"⟩ .BUY
      [("price", .str "1.5"), ("info", .str "x")] true).2.2 "A" "B" ⟨"7"⟩ .SELL
      [("price", .str "1.5")] false (by decide)

/-- When the trading pair splits into two parts, `get_quote_price` issues
exactly the one request `quote_request`, whatever the gateway answers. -/
lemma get_quote_price_calls_of_split (env : SwapEnv)
    (cr : GatewayRequest → Except PyExc PyDict) (tp b q : String)
    (is_buy : Bool) (amount : Dec) (sp : Option Dec) (pa : Option String)
    (hsplit : pySplitDash tp = [b, q]) :
    (get_quote_price env cr tp is_buy amount sp pa).calls =
      [quote_request env b q (if is_buy then TradeType.BUY else TradeType.SELL)
        amount sp pa] := by
  simp only [get_quote_price, hsplit]
  cases hc : cr (quote_request env b q
      (if is_buy then TradeType.BUY else TradeType.SELL) amount sp pa) with
  | ok resp => rfl
  | error e => cases e <;> rfl

/-- C2: for a trading pair of the form `base-quote`, `get_quote_price`
sends one `get` request to the `quote-swap` endpoint whose payload holds
exactly `network`, `baseToken`, `quoteToken`, `amount = float(amount)`
and `side` (`"BUY"` when `is_buy`, else `"SELL"`), plus `slippagePct`
exactly when `slippage_pct` is given and `poolAddress` exactly when
`pool_address` is given and the connector type is CLMM or AMM. -/
theorem get_quote_price_request_fields (env : SwapEnv)
    (cr : GatewayRequest → Except PyExc PyDict) (tp base quote : String)
    (is_buy : Bool) (amount : Dec) (slippage_pct : Option Dec)
    (pool_address : Option String)
    (hsplit : pySplitDash tp = [base, quote]) :
    (get_quote_price env cr tp is_buy amount slippage_pct pool_address).calls =
      [quote_request env base quote (if is_buy then TradeType.BUY else TradeType.SELL)
        amount slippage_pct pool_address] ∧
    (quote_request env base quote (if is_buy then TradeType.BUY else TradeType.SELL)
        amount slippage_pct pool_address).http_method = "get" ∧
    (quote_request env base quote (if is_buy then TradeType.BUY else TradeType.SELL)
        amount slippage_pct pool_address).connector = env.connector_name ∧
    (quote_request env base quote (if is_buy then TradeType.BUY else TradeType.SELL)
        amount slippage_pct pool_address).endpoint = "quote-swap" ∧
    (quote_request env base quote (if is_buy then TradeType.BUY else TradeType.SELL)
        amount slippage_pct pool_address).payload =
      [("network", PyValue.str env.network),
       ("baseToken", PyValue.str base),
       ("quoteToken", PyValue.str quote),
       ("amount", PyValue.floatOfDec amount),
       ("side", PyValue.str (if is_buy then "BUY" else "SELL"))] ++
      (match slippage_pct with
       | some sp => [("slippagePct", PyValue.floatOfDec sp)]
       | none => ([] : PyDict)) ++
      (if env.get_connector_type env.connector_name = ConnectorType.CLMM ∨
          env.get_connector_type env.connector_name = ConnectorType.AMM then
        match pool_address with
        | some pool => [("poolAddress", PyValue.str pool)]
        | none => ([] : PyDict)
      else []) ∧
    (pyContains (quote_request env base quote
        (if is_buy then TradeType.BUY else TradeType.SELL)
        amount slippage_pct pool_address).payload "slippagePct" = true ↔
      slippage_pct ≠ none) ∧
    (pyContains (quote_request env base quote
        (if is_buy then TradeType.BUY else TradeType.SELL)
        amount slippage_pct pool_address).payload "poolAddress" = true ↔
      (pool_address ≠ none ∧
        (env.get_connector_type env.connector_name = ConnectorType.CLMM ∨
         env.get_connector_type env.connector_name = ConnectorType.AMM))) := by
  refine ⟨get_quote_price_calls_of_split env cr tp base quote is_buy amount
    slippage_pct pool_address hsplit, rfl, rfl, rfl, ?_, ?_, ?_⟩
  · cases is_buy <;> rfl
  · by_cases hct : env.get_connector_type env.connector_name = ConnectorType.CLMM ∨
        env.get_connector_type env.connector_name = ConnectorType.AMM <;>
      cases slippage_pct <;> cases pool_address <;>
      simp [quote_request, quote_request_payload, pyContains, pyGet, hct]
  · by_cases hct : env.get_connector_type env.connector_name = ConnectorType.CLMM ∨
        env.get_connector_type env.connector_name = ConnectorType.AMM <;>
      cases slippage_pct <;> cases pool_address <;>
      simp [quote_request, quote_request_payload, pyContains, pyGet, hct]

/-- Witness for C2 at a concrete invocation: the pair `SOL-USDC` with a
slippage and a pool address on an AMM connector. -/
theorem get_quote_price_request_fields_witness :
    pySplitDash "SOL-USDC" = ["SOL", "USDC"] ∧
    (get_quote_price env0 (okOracle [("price", .str "3")]) "SOL-USDC" true ⟨"2"⟩
        (some ⟨"1"⟩) (some "POOL")).calls =
      [quote_request env0 "SOL" "USDC" TradeType.BUY ⟨"2"⟩ (some ⟨"1"⟩) (some "POOL")] := by
  constructor
  · decide
  · have h := get_quote_price_request_fields env0 (okOracle [("price", .str "3")])
      "SOL-USDC" "SOL" "USDC" true ⟨"2"⟩ (some ⟨"1"⟩) (some "POOL") (by decide)
    exact h.1

/-- C3: if the gateway request inside `get_quote_price` raises, a
non-cancellation exception is logged through `logger().network` and the
call returns `None`; `asyncio.CancelledError` escapes unchanged. -/
theorem get_quote_price_exception_handling (env : SwapEnv)
    (cr : GatewayRequest → Except PyExc PyDict) (tp b q : String)
    (is_buy : Bool) (amount : Dec) (sp : Option Dec) (pa : Option String)
    (e : PyExc) (hsplit : pySplitDash tp = [b, q])
    (hreq : cr (quote_request env b q
      (if is_buy then TradeType.BUY else TradeType.SELL) amount sp pa) = .error e) :
    (e ≠ PyExc.cancelledError →
      (get_quote_price env cr tp is_buy amount sp pa).result = .ok none ∧
      (get_quote_price env cr tp is_buy amount sp pa).logs =
        [.networkError (quote_error_msg tp
          (if is_buy then TradeType.BUY else TradeType.SELL) amount) e.text]) ∧
    (e = PyExc.cancelledError →
      (get_quote_price env cr tp is_buy amount sp pa).result =
        .error PyExc.cancelledError ∧
      (get_quote_price env cr tp is_buy amount sp pa).logs = []) := by
  simp only [get_quote_price, hsplit, hreq]
  cases e with
  | cancelledError => exact ⟨fun h => absurd rfl h, fun _ => ⟨rfl, rfl⟩⟩
  | valueError m => exact ⟨fun _ => ⟨rfl, rfl⟩, fun h => by cases h⟩
  | other m => exact ⟨fun _ => ⟨rfl, rfl⟩, fun h => by cases h⟩

/-- Witness for C3 at a concrete failing gateway: a generic exception is
swallowed into `None` with one network log, and a cancellation escapes. -/
theorem get_quote_price_exception_handling_witness :
    ((get_quote_price env0 (errOracle (.other "boom")) "SOL-USDC" true ⟨"5"⟩
        none none).result = .ok none ∧
      (get_quote_price env0 (errOracle (.other "boom")) "SOL-USDC" true ⟨"5"⟩
        none none).logs =
        [.networkError (quote_error_msg "SOL-USDC" TradeType.BUY ⟨"5"⟩)
          (PyExc.other "boom").text]) ∧
    (get_quote_price env0 (errOracle .cancelledError) "SOL-USDC" true ⟨"5"⟩
        none none).result = .error PyExc.cancelledError := by
  constructor
  · exact (get_quote_price_exception_handling env0 (errOracle (.other "boom"))
      "SOL-USDC" "SOL" "USDC" true ⟨"5"⟩ none none (.other "boom")
      (by decide) rfl).1 (by decide)
  · exact ((get_quote_price_exception_handling env0 (errOracle .cancelledError)
      "SOL-USDC" "SOL" "USDC" true ⟨"5"⟩ none none .cancelledError
      (by decide) rfl).2 rfl).1

/-- C4: `_create_order` submits to `execute-swap` exactly the parameters
`walletAddress`, `baseToken`, `quoteToken`, `amount = float` of the
quantized amount and `side =` the trade type's name; the quantized price
appears in the tracking event but not among the submitted parameters. -/
theorem create_order_swap_params (env : SwapEnv)
    (exec : ExecuteTxCall → Except PyExc Unit) (s : SwapState)
    (tt : TradeType) (oid tp b q : String) (amount price : Dec)
    (hsplit : pySplitDash tp = [b, q]) :
    (_create_order env exec s tt oid tp amount price).events.head? =
      some (.startTracking oid tp tt (env.quantize_order_price tp price)
        (env.quantize_order_amount tp amount)) ∧
    (_create_order env exec s tt oid tp amount price).events[1]? =
      some (.executeTransaction
        (execute_swap_call env b q tt oid (env.quantize_order_amount tp amount))) ∧
    (execute_swap_call env b q tt oid (env.quantize_order_amount tp amount)).method =
      "execute-swap" ∧
    (execute_swap_call env b q tt oid (env.quantize_order_amount tp amount)).params =
      [("walletAddress", PyValue.str env.address),
       ("baseToken", PyValue.str b),
       ("quoteToken", PyValue.str q),
       ("amount", PyValue.floatOfDec (env.quantize_order_amount tp amount)),
       ("side", PyValue.str tt.name)] ∧
    pyContains (execute_swap_call env b q tt oid
      (env.quantize_order_amount tp amount)).params "price" = false := by
  simp only [_create_order, hsplit]
  cases he : exec (execute_swap_call env b q tt oid
      (env.quantize_order_amount tp amount)) with
  | ok u => exact ⟨rfl, rfl, rfl, rfl, by simp [execute_swap_call, pyContains, pyGet]⟩
  | error e =>
    cases e <;>
      exact ⟨rfl, rfl, rfl, rfl, by simp [execute_swap_call, pyContains, pyGet]⟩

/-- Witness for C4 at a concrete order: the submitted parameter list and
the tracking event for a BUY of 2 SOL-USDC. -/
theorem create_order_swap_params_witness :
    (_create_order env0 okExec ⟨none⟩ .BUY "oid1" "SOL-USDC" ⟨"2"⟩ ⟨"9"⟩).events.head? =
      some (.startTracking "oid1" "SOL-USDC" .BUY ⟨"9"⟩ ⟨"2"⟩) ∧
    (execute_swap_call env0 "SOL" "USDC" .BUY "oid1" ⟨"2"⟩).params =
      [("walletAddress", PyValue.str "WALLET1"),
       ("baseToken", PyValue.str "SOL"),
       ("quoteToken", PyValue.str "USDC"),
       ("amount", PyValue.floatOfDec ⟨"2"⟩),
       ("side", PyValue.str "BUY")] := by
  have h := create_order_swap_params env0 okExec ⟨none⟩ .BUY "oid1" "SOL-USDC"
    "SOL" "USDC" ⟨"2"⟩ ⟨"9"⟩ (by decide)
  exact ⟨h.1, h.2.2.2.1⟩

/-- C5: `buy` and `sell` return the id produced by
`create_market_order_id` for the respective side, schedule `_create_order`
as a separate task instead of running it, and the returned id is
independent of amount, order type and price. -/
theorem buy_sell_order_id (env : SwapEnv) (tp : String) (amount : Dec)
    (order_type : OrderType) (price : Dec) :
    buy env tp amount order_type price =
      (env.create_market_order_id .BUY tp,
       [⟨.BUY, env.create_market_order_id .BUY tp, tp, amount, price⟩]) ∧
    sell env tp amount order_type price =
      (env.create_market_order_id .SELL tp,
       [⟨.SELL, env.create_market_order_id .SELL tp, tp, amount, price⟩]) ∧
    (∀ (a₂ : Dec) (ot₂ : OrderType) (p₂ : Dec),
      (buy env tp a₂ ot₂ p₂).1 = (buy env tp amount order_type price).1) ∧
    (∀ (a₂ : Dec) (ot₂ : OrderType) (p₂ : Dec),
      (sell env tp a₂ ot₂ p₂).1 = (sell env tp amount order_type price).1) :=
  ⟨rfl, rfl, fun _ _ _ => rfl, fun _ _ _ => rfl⟩

/-- C6: `_create_order` starts tracking (with the quantized amount and
price) before the transaction is submitted; a non-cancellation submission
failure is routed to `_handle_operation_failure` with the order id and
does not escape, while a cancellation is re-raised. -/
theorem create_order_failure_handling (env : SwapEnv)
    (exec : ExecuteTxCall → Except PyExc Unit) (s : SwapState)
    (tt : TradeType) (oid tp b q : String) (amount price : Dec) (e : PyExc)
    (hsplit : pySplitDash tp = [b, q]) :
    (_create_order env exec s tt oid tp amount price).events.head? =
      some (.startTracking oid tp tt (env.quantize_order_price tp price)
        (env.quantize_order_amount tp amount)) ∧
    (_create_order env exec s tt oid tp amount price).events[1]? =
      some (.executeTransaction
        (execute_swap_call env b q tt oid (env.quantize_order_amount tp amount))) ∧
    (exec (execute_swap_call env b q tt oid (env.quantize_order_amount tp amount)) =
        .error e → e ≠ PyExc.cancelledError →
      (_create_order env exec s tt oid tp amount price).result = .ok () ∧
      (_create_order env exec s tt oid tp amount price).events =
        [.startTracking oid tp tt (env.quantize_order_price tp price)
          (env.quantize_order_amount tp amount),
         .executeTransaction
          (execute_swap_call env b q tt oid (env.quantize_order_amount tp amount)),
         .handleOperationFailure oid tp
          ("submitting " ++ tt.name ++ " swap order") e]) ∧
    (exec (execute_swap_call env b q tt oid (env.quantize_order_amount tp amount)) =
        .error PyExc.cancelledError →
      (_create_order env exec s tt oid tp amount price).result =
        .error PyExc.cancelledError) := by
  simp only [_create_order, hsplit]
  cases he : exec (execute_swap_call env b q tt oid
      (env.quantize_order_amount tp amount)) with
  | ok u =>
    refine ⟨rfl, rfl, ?_, ?_⟩
    · intro h
      cases h
    · intro h
      cases h
  | error e₂ =>
    cases e₂ with
    | cancelledError =>
      refine ⟨rfl, rfl, ?_, fun _ => rfl⟩
      intro h hne
      cases h
      exact absurd rfl hne
    | valueError m =>
      refine ⟨rfl, rfl, ?_, ?_⟩
      · intro h _
        cases h
        exact ⟨rfl, rfl⟩
      · intro h
        cases h
    | other m =>
      refine ⟨rfl, rfl, ?_, ?_⟩
      · intro h _
        cases h
        exact ⟨rfl, rfl⟩
      · intro h
        cases h

/-- Witness for C6 at a concrete failing submission: the failure event
carries the order id and the result is a normal return, while a
cancellation escapes. -/
theorem create_order_failure_handling_witness :
    ((_create_order env0 (errExec (.other "rpc down")) ⟨none⟩ .SELL "oid2"
        "SOL-USDC" ⟨"2"⟩ ⟨"9"⟩).result = .ok () ∧
      (_create_order env0 (errExec (.other "rpc down")) ⟨none⟩ .SELL "oid2"
        "SOL-USDC" ⟨"2"⟩ ⟨"9"⟩).events =
        [.startTracking "oid2" "SOL-USDC" .SELL ⟨"9"⟩ ⟨"2"⟩,
         .executeTransaction (execute_swap_call env0 "SOL" "USDC" .SELL "oid2" ⟨"2"⟩),
         .handleOperationFailure "oid2" "SOL-USDC"
          ("submitting " ++ TradeType.SELL.name ++ " swap order") (.other "rpc down")]) ∧
    (_create_order env0 (errExec .cancelledError) ⟨none⟩ .SELL "oid2"
        "SOL-USDC" ⟨"2"⟩ ⟨"9"⟩).result = .error PyExc.cancelledError := by
  constructor
  · exact (create_order_failure_handling env0 (errExec (.other "rpc down")) ⟨none⟩
      .SELL "oid2" "SOL-USDC" "SOL" "USDC" ⟨"2"⟩ ⟨"9"⟩ (.other "rpc down")
      (by decide)).2.2.1 rfl (by decide)
  · exact (create_order_failure_handling env0 (errExec .cancelledError) ⟨none⟩
      .SELL "oid2" "SOL-USDC" "SOL" "USDC" ⟨"2"⟩ ⟨"9"⟩ .cancelledError
      (by decide)).2.2.2 rfl

/-- C7 counterexample: an invocation of `get_quote_price` whose trading
pair does not contain a dash issues zero gateway requests, not one. -/
theorem get_quote_price_single_request_cex :
    (get_quote_price env0 (okOracle [("price", .str "1")]) "SOLUSDC" true ⟨"1"⟩
      none none).calls.length ≠ 1 := by
  decide

/-- C7 (amended): `get_quote_price` never issues more than one gateway
request — no retry, no extra call — and it issues exactly one request, to
the `quote-swap` endpoint, whenever the trading pair splits into two
parts. -/
theorem get_quote_price_single_request (env : SwapEnv)
    (cr : GatewayRequest → Except PyExc PyDict) (tp : String)
    (is_buy : Bool) (amount : Dec) (sp : Option Dec) (pa : Option String) :
    (get_quote_price env cr tp is_buy amount sp pa).calls.length ≤ 1 ∧
    (∀ b q, pySplitDash tp = [b, q] →
      (get_quote_price env cr tp is_buy amount sp pa).calls =
        [quote_request env b q (if is_buy then TradeType.BUY else TradeType.SELL)
          amount sp pa] ∧
      ∀ c ∈ (get_quote_price env cr tp is_buy amount sp pa).calls,
        c.endpoint = "quote-swap") := by
  constructor
  · match hp : pySplitDash tp with
    | [b, q] =>
      rw [get_quote_price_calls_of_split env cr tp b q is_buy amount sp pa hp]
      exact Nat.le_refl 1
    | [] => simp [get_quote_price, hp]
    | [b] => simp [get_quote_price, hp]
    | b :: q :: r :: rest => simp [get_quote_price, hp]
  · intro b q hp
    refine ⟨get_quote_price_calls_of_split env cr tp b q is_buy amount sp pa hp, ?_⟩
    intro c hc
    rw [get_quote_price_calls_of_split env cr tp b q is_buy amount sp pa hp] at hc
    cases hc with
    | head => rfl
    | tail _ h => cases h

/-- Witness for C7 (amended) at a concrete invocation on `SOL-USDC`: one
call, to `quote-swap`. -/
theorem get_quote_price_single_request_witness :
    (get_quote_price env0 (okOracle [("price", .str "1")]) "SOL-USDC" false ⟨"4"⟩
        none none).calls =
      [quote_request env0 "SOL" "USDC" TradeType.SELL ⟨"4"⟩ none none] := by
  exact ((get_quote_price_single_request env0 (okOracle [("price", .str "1")])
    "SOL-USDC" false ⟨"4"⟩ none none).2 "SOL" "USDC" (by decide)).1

/-- C8: `get_order_price` is exactly `get_quote_price` at the same
arguments with `slippage_pct` and `pool_address` left at their `None`
defaults. -/
theorem get_order_price_eq_quote (env : SwapEnv)
    (cr : GatewayRequest → Except PyExc PyDict) (tp : String)
    (is_buy : Bool) (amount : Dec) :
    get_order_price env cr tp is_buy amount =
      get_quote_price env cr tp is_buy amount none none :=
  rfl

/-- C9: when the trading pair does not split into exactly two parts,
`get_quote_price` raises the unpacking `ValueError` before any gateway
request and without logging, so it does not return `None`. -/
theorem get_quote_price_malformed_pair (env : SwapEnv)
    (cr : GatewayRequest → Except PyExc PyDict) (tp : String)
    (is_buy : Bool) (amount : Dec) (sp : Option Dec) (pa : Option String)
    (hlen : (pySplitDash tp).length ≠ 2) :
    (get_quote_price env cr tp is_buy amount sp pa).result =
      .error (.valueError (unpack_error_msg (pySplitDash tp).length)) ∧
    (get_quote_price env cr tp is_buy amount sp pa).calls = [] ∧
    (get_quote_price env cr tp is_buy amount sp pa).logs = [] := by
  cases hp : pySplitDash tp with
  | nil => simp [get_quote_price, hp]
  | cons b rest =>
    cases rest with
    | nil => simp [get_quote_price, hp]
    | cons q rest₂ =>
      cases rest₂ with
      | nil => exact absurd (by simp [hp]) hlen
      | cons r rest₃ => simp [get_quote_price, hp]

/-- Witness for C9 at the concrete pair `SOL-USDC-X` (three parts): the
`ValueError` escapes, and no request or log is produced. -/
theorem get_quote_price_malformed_pair_witness :
    (get_quote_price env0 (okOracle [("price", .str "1")]) "SOL-USDC-X" true ⟨"1"⟩
        none none).result =
      .error (.valueError (unpack_error_msg (pySplitDash "SOL-USDC-X").length)) ∧
    (get_quote_price env0 (okOracle [("price", .str "1")]) "SOL-USDC-X" true ⟨"1"⟩
        none none).calls = [] ∧
    (get_quote_price env0 (okOracle [("price", .str "1")]) "SOL-USDC-X" true ⟨"1"⟩
        none none).logs = [] :=
  get_quote_price_malformed_pair env0 (okOracle [("price", .str "1")]) "SOL-USDC-X"
    true ⟨"1"⟩ none none (by decide)

/-- C10: the first `tx_handler` access stores `_get_gateway_instance()`
in `_tx_handler` (and calls the factory), every later access returns the
stored handler without calling the factory and without changing the
state, and no operation of the class replaces a non-`None` handler;
`_create_order` is the only state-touching operation. -/
theorem tx_handler_caching (env : SwapEnv) (s : SwapState) :
    (s._tx_handler = none →
      tx_handler env s =
        (env._get_gateway_instance, ⟨some env._get_gateway_instance⟩, true)) ∧
    (∀ g, s._tx_handler = some g → tx_handler env s = (g, s, false)) ∧
    (∀ g (exec : ExecuteTxCall → Except PyExc Unit) (tt : TradeType)
        (oid tp : String) (amount price : Dec), s._tx_handler = some g →
      (_create_order env exec s tt oid tp amount price).state._tx_handler = some g) := by
  refine ⟨?_, ?_, ?_⟩
  · intro h
    simp [tx_handler, h]
  · intro g h
    simp [tx_handler, h]
  · intro g exec tt oid tp amount price h
    cases hp : pySplitDash tp with
    | nil =>
      simp only [_create_order, hp]
      exact h
    | cons b rest =>
      cases rest with
      | nil =>
        simp only [_create_order, hp]
        exact h
      | cons q rest₂ =>
        cases rest₂ with
        | nil =>
          simp only [_create_order, hp]
          cases hexec : exec (execute_swap_call env b q tt oid
              (env.quantize_order_amount tp amount)) with
          | ok u => simp [tx_handler, h]
          | error e => cases e <;> simp [tx_handler, h]
        | cons r rest₃ =>
          simp only [_create_order, hp]
          exact h

/-- Witness for C10 at concrete states: a `None` state is filled with the
factory's instance, a filled state is returned untouched, and
`_create_order` preserves the stored handler. -/
theorem tx_handler_caching_witness :
    tx_handler env0 ⟨none⟩ = (⟨7⟩, ⟨some ⟨7⟩⟩, true) ∧
    tx_handler env0 ⟨some ⟨3⟩⟩ = (⟨3⟩, ⟨some ⟨3⟩⟩, false) ∧
    (_create_order env0 okExec ⟨some ⟨3⟩⟩ .BUY "oid3" "SOL-USDC" ⟨"1"⟩
      ⟨"2"⟩).state._tx_handler = some ⟨3⟩ := by
  refine ⟨(tx_handler_caching env0 ⟨none⟩).1 rfl, ?_, ?_⟩
  · exact (tx_handler_caching env0 ⟨some ⟨3⟩⟩).2.1 ⟨3⟩ rfl
  · exact (tx_handler_caching env0 ⟨some ⟨3⟩⟩).2.2 ⟨3⟩ okExec .BUY "oid3"
      "SOL-USDC" ⟨"1"⟩ ⟨"2"⟩ rfl

end GatewaySwap
